import Mathlib

/-!
Verification of the image background-remover service core, shallowly embedded
from the TypeScript source: the processing pipeline, the background-removal
step's retry and error-mapping policy, guest-identity resolution and the
guest-to-authenticated merge, the ownership gate, the authenticated content
proxy, rename validation, and upload file validation.

Buffers are modelled as `List Nat` (byte lists); fallible operations return
`Except`; the database is explicit state; external collaborators (the
background-removal HTTP service, the blob store, the persistence engine's
fault behaviour) are passed in as oracles/parameters.
-/

namespace ImgSvc

/-- The `Buffer` type of the source: an immutable byte buffer. -/
abbrev Buf := List Nat

/-- `PipelineStepError` (src pipeline-step-error): uniform error class for all
pipeline step failures, carrying the failing step's name, a machine-readable
code, an HTTP status hint and a message. -/
structure PipelineStepError where
  stepName : String
  code : String
  statusCode : Nat
  message : String
deriving Repr, DecidableEq

/-- `IImageProcessingStep` (src image-processing-step): a named step whose
`process` maps a buffer to a buffer or throws a `PipelineStepError`. -/
structure IImageProcessingStep where
  name : String
  process : Buf → Except PipelineStepError Buf

/-- `ImageProcessingPipeline` (src part_012): holds an ordered step list;
the constructor's non-emptiness check is modelled by
`ImageProcessingPipeline.make`. -/
structure ImageProcessingPipeline where
  steps : List IImageProcessingStep

namespace ImageProcessingPipeline

/-- The constructor of `ImageProcessingPipeline`: throws
`Pipeline must have at least one processing step` when the step list is
empty, before any `execute` call can happen. -/
def make (steps : List IImageProcessingStep) :
    Except String ImageProcessingPipeline :=
  if steps.length = 0 then
    .error "Pipeline must have at least one processing step"
  else
    .ok ⟨steps⟩

/-- The loop body of `execute` (src part_012): fold the buffer through the
steps, the first thrown `PipelineStepError` aborting the loop. -/
def runSteps : List IImageProcessingStep → Buf → Except PipelineStepError Buf
  | [], b => .ok b
  | s :: rest, b =>
    match s.process b with
    | .ok b2 => runSteps rest b2
    | .error e => .error e

/-- `execute(image)` (src part_012): sequentially applies every step. -/
def execute (p : ImageProcessingPipeline) (image : Buf) :
    Except PipelineStepError Buf :=
  runSteps p.steps image

/-- Same loop instrumented with the names of the steps whose `process` was
actually invoked, to express "no subsequent step executes". -/
def runStepsTrace : List IImageProcessingStep → Buf →
    List String × Except PipelineStepError Buf
  | [], b => ([], .ok b)
  | s :: rest, b =>
    match s.process b with
    | .ok b2 =>
      let r := runStepsTrace rest b2
      (s.name :: r.1, r.2)
    | .error e => ([s.name], .error e)

end ImageProcessingPipeline

/-- A concrete step that prepends a byte (always succeeds). -/
def stepPrepend : IImageProcessingStep :=
  ⟨"format-normalization", fun b => .ok (0 :: b)⟩

/-- A concrete step error used in examples. -/
def errKaput : PipelineStepError :=
  ⟨"background-removal", "BG_REMOVAL_NETWORK_ERROR", 502,
   "Failed to connect to background removal service"⟩

/-- A concrete step that always fails with `errKaput`. -/
def stepKaput : IImageProcessingStep :=
  ⟨"background-removal", fun _ => .error errKaput⟩

/-- A concrete step that passes the buffer through. -/
def stepId : IImageProcessingStep :=
  ⟨"horizontal-flip", fun b => .ok b⟩

namespace BackgroundRemovalStep

/-- `name` of the background-removal step (src part_011). -/
def bgName : String := "background-removal"

/-- `maxRetries` (src part_011): up to 2 retries. -/
def maxRetries : Nat := 2

/-- `retryDelayMs` (src part_011): the linear-backoff base delay. -/
def retryDelayMs : Nat := 1000

/-- `isRetryableError` (src part_011): true exactly for the three transient
codes. -/
def isRetryableError (e : PipelineStepError) : Bool :=
  ["BG_REMOVAL_NETWORK_ERROR", "BG_REMOVAL_SERVICE_UNAVAILABLE",
   "BG_REMOVAL_RATE_LIMITED"].contains e.code

/-- `handleErrorResponse` (src part_011): maps a non-2xx upstream response
status (and the extracted error title) to a `PipelineStepError`. -/
def handleErrorResponse (status : Nat) (errorMessage : String) :
    PipelineStepError :=
  if status = 400 then
    ⟨bgName, "BG_REMOVAL_INVALID_IMAGE", 400,
     "Invalid image: " ++ errorMessage⟩
  else if status = 402 ∨ status = 403 then
    ⟨bgName, "BG_REMOVAL_QUOTA_EXCEEDED", 502,
     "Background removal quota exceeded or insufficient credits"⟩
  else if status = 429 then
    ⟨bgName, "BG_REMOVAL_RATE_LIMITED", 502,
     "Too many requests to background removal service"⟩
  else if status = 500 ∨ status = 502 ∨ status = 503 ∨ status = 504 then
    ⟨bgName, "BG_REMOVAL_SERVICE_UNAVAILABLE", 502,
     "Background removal service is temporarily unavailable"⟩
  else
    ⟨bgName, "BG_REMOVAL_FAILED", 502,
     "Background removal failed: " ++ errorMessage⟩

/-- Outcome of one `fetch` to the upstream service: either an HTTP response
(status, body bytes, extracted error title) or a thrown network/fetch
error. -/
inductive FetchOutcome where
  | response (status : Nat) (body : Buf) (errTitle : String)
  | thrown

/-- `removeBackground` (src part_011): a 2xx response yields the body bytes;
a non-2xx response is mapped by `handleErrorResponse`; a thrown fetch error
becomes `BG_REMOVAL_NETWORK_ERROR` (502). -/
def removeBackground : FetchOutcome → Except PipelineStepError Buf
  | .response status body errTitle =>
    if 200 ≤ status ∧ status ≤ 299 then .ok body
    else .error (handleErrorResponse status errTitle)
  | .thrown =>
    .error ⟨bgName, "BG_REMOVAL_NETWORK_ERROR", 502,
      "Failed to connect to background removal service"⟩

/-- What one loop iteration of `process` observes: either `removeBackground`
ran against a fetch outcome, or it threw a value that is not a
`PipelineStepError` (the unexpected-exception path). -/
inductive AttemptOutcome where
  | fetch (f : FetchOutcome)
  | unexpected

/-- The unexpected-error wrapper thrown by `process` (src part_011). -/
def unexpectedError : PipelineStepError :=
  ⟨bgName, "BG_REMOVAL_UNEXPECTED_ERROR", 500,
   "An unexpected error occurred during background removal"⟩

/-- The post-loop guard error (src part_011), unreachable in practice. -/
def exhaustedError : PipelineStepError :=
  ⟨bgName, "BG_REMOVAL_FAILED", 500,
   "Background removal failed after retries"⟩

/-- Observable run of `process`: the returned/thrown result, the number of
`removeBackground` attempts made, and the sleep durations between
attempts. -/
structure ProcessRun where
  result : Except PipelineStepError Buf
  attempts : Nat
  delays : List Nat
deriving Repr

/-- The retry loop of `process` (src part_011), with `fuel` iterations left
and `attempt` the current 0-based attempt index: a success returns; a
`PipelineStepError` is rethrown unless it is retryable and `attempt` is below
`maxRetries`, in which case the loop sleeps `retryDelayMs * (attempt + 1)`
and retries; a non-`PipelineStepError` throw becomes `unexpectedError`;
exhausting the loop yields the (unreachable) `exhaustedError` guard. -/
def processGo (oracle : Nat → AttemptOutcome) : Nat → Nat → ProcessRun
  | 0, _ => ⟨.error exhaustedError, 0, []⟩
  | fuel + 1, attempt =>
    match oracle attempt with
    | .unexpected => ⟨.error unexpectedError, 1, []⟩
    | .fetch f =>
      match removeBackground f with
      | .ok b => ⟨.ok b, 1, []⟩
      | .error e =>
        if isRetryableError e = true ∧ attempt ≠ maxRetries then
          let r := processGo oracle fuel (attempt + 1)
          ⟨r.result, r.attempts + 1, retryDelayMs * (attempt + 1) :: r.delays⟩
        else ⟨.error e, 1, []⟩

/-- `process` (src part_011): the loop runs attempts `0 .. maxRetries`. -/
def process (oracle : Nat → AttemptOutcome) : ProcessRun :=
  processGo oracle (maxRetries + 1) 0

end BackgroundRemovalStep

/-- A concrete attempt-outcome oracle: rate-limited on attempt 0, network
failure on attempt 1, success on attempt 2. -/
def oracleTransient : Nat → BackgroundRemovalStep.AttemptOutcome :=
  fun n =>
    if n = 0 then .fetch (.response 429 [] "Too many requests")
    else if n = 1 then .fetch .thrown
    else .fetch (.response 200 [5] "")

/-- A concrete attempt-outcome oracle: quota exhausted (upstream 402) on the
first attempt. -/
def oracleQuota : Nat → BackgroundRemovalStep.AttemptOutcome :=
  fun _ => .fetch (.response 402 [] "Insufficient credits")

/-- The (code, httpStatusHint) pairs the spec lists for the
background-removal step. -/
def specifiedBgCodeStatuses : List (String × Nat) :=
  [("BG_REMOVAL_INVALID_IMAGE", 400), ("BG_REMOVAL_QUOTA_EXCEEDED", 502),
   ("BG_REMOVAL_RATE_LIMITED", 502), ("BG_REMOVAL_SERVICE_UNAVAILABLE", 502),
   ("BG_REMOVAL_NETWORK_ERROR", 502), ("BG_REMOVAL_UNEXPECTED_ERROR", 500)]

/-- The (code, httpStatusHint) pairs the code can actually produce: the
specified ones plus the `BG_REMOVAL_FAILED` (502) fallback for unrecognized
upstream error statuses. -/
def extendedBgCodeStatuses : List (String × Nat) :=
  specifiedBgCodeStatuses ++ [("BG_REMOVAL_FAILED", 502)]

/-- A `User` row (Prisma model): id plus the isGuest flag. -/
structure User where
  id : String
  isGuest : Bool
deriving Repr, DecidableEq

/-- A `Conversion` row (Prisma model): a content record linking its owner to
the stored original and processed blobs. -/
structure Conversion where
  id : String
  userId : String
  name : String
  originalBlobUrl : String
  processedBlobUrl : String
  originalContentType : String
  processedContentType : String
  size : Nat
deriving Repr, DecidableEq

/-- The database state: users and conversions. -/
structure DBState where
  users : List User
  conversions : List Conversion
deriving Repr, DecidableEq

namespace ConversionRepository

/-- `findById` (src conversion.repository.ts): unique lookup by id. -/
def findById (db : DBState) (id : String) : Option Conversion :=
  db.conversions.find? (fun c => c.id == id)

/-- `reassignUser` (src conversion.repository.ts): `updateMany` setting
`userId = toUserId` on every conversion with `userId = fromUserId`. -/
def reassignUser (fromUserId toUserId : String) (db : DBState) : DBState :=
  { db with
    conversions := db.conversions.map (fun c =>
      if c.userId == fromUserId then { c with userId := toUserId } else c) }

/-- `updateName` (src part_003): `update` setting the display name of the
record with the given id, returning the updated record; fails (Prisma throw)
when no such record exists. -/
def updateName (db : DBState) (id name : String) :
    Except Unit (Conversion × DBState) :=
  match findById db id with
  | none => .error ()
  | some c =>
    .ok ({ c with name := name },
      { db with
        conversions := db.conversions.map (fun x =>
          if x.id == id then { x with name := name } else x) })

end ConversionRepository

/-- `tx.user.delete({ where: { id: guestUserId, isGuest: true } })`
(src merge-guest.ts): deletes the matching row, or fails with Prisma error
code P2025 when no such row exists. -/
def deleteGuestUser (id : String) (db : DBState) : Except String DBState :=
  if db.users.any (fun u => (u.id == id) && u.isGuest) then
    .ok { db with
      users := db.users.filter (fun u => !((u.id == id) && u.isGuest)) }
  else .error "P2025"

/-- The body of the merge's interactive transaction (src merge-guest.ts):
reassign all conversions, then delete the guest user row. `rf` and `df`
inject persistence-engine faults (a Prisma error code) into the reassign and
delete calls, modelling external DB failures; `none` means the call behaves
normally. An error anywhere makes the whole transaction roll back (the
pre-transaction state is kept by the caller below). -/
def mergeTxn (rf df : Option String) (guestUserId authenticatedUserId : String)
    (db : DBState) : Except String DBState :=
  match rf with
  | some e => .error e
  | none =>
    let db1 := ConversionRepository.reassignUser guestUserId
      authenticatedUserId db
    match df with
    | some e => .error e
    | none => deleteGuestUser guestUserId db1

/-- `mergeGuestUser` (src merge-guest.ts): runs the transaction; a P2025
failure (guest user already gone — stale cookie) is swallowed as success;
any other failure is rethrown wrapped, with the state rolled back. Returns
the resulting state and the call's outcome. -/
def mergeGuestUser (rf df : Option String)
    (guestUserId authenticatedUserId : String) (db : DBState) :
    DBState × Except String Unit :=
  match mergeTxn rf df guestUserId authenticatedUserId db with
  | .ok db1 => (db1, .ok ())
  | .error e =>
    if e = "P2025" then (db, .ok ())
    else (db, .error ("Failed to merge guest user: " ++ e))

/-- A guest cookie's JWT payload together with its verification status:
`sigValid` is signature verification, `expired` the expiry check (either
failing makes `jwtVerify` throw), `isGuest` the payload claim. -/
structure GuestToken where
  sub : String
  isGuest : Bool
  sigValid : Bool
  expired : Bool

/-- `ResolvedUser` (src part_010). -/
structure ResolvedUser where
  userId : String
  isGuest : Bool
  shouldClearGuestCookie : Bool
deriving Repr, DecidableEq

/-- `readGuestCookie` (src guest.ts): no cookie → null; a token failing
signature verification or expired → null (the throw is caught); a verified
token yields its subject only when the isGuest claim is set. -/
def readGuestCookie : Option GuestToken → Option String
  | none => none
  | some t =>
    if t.sigValid && !t.expired then
      if t.isGuest then some t.sub else none
    else none

/-- `resolveUser` (src part_010): session first. With both a session and a
valid guest cookie, `mergeGuestUser` runs synchronously (no injected engine
faults modelled here) before the result is returned, and the result signals
the caller to clear the guest cookie. Returns the resolved user, the
post-merge database state, and the list of merge invocations made. -/
def resolveUser (session : Option String) (cookie : Option GuestToken)
    (db : DBState) :
    Option ResolvedUser × DBState × List (String × String) :=
  let guestUserId := readGuestCookie cookie
  match session with
  | some uid =>
    match guestUserId with
    | some gid =>
      (some ⟨uid, false, true⟩, (mergeGuestUser none none gid uid db).1,
       [(gid, uid)])
    | none => (some ⟨uid, false, false⟩, db, [])
  | none =>
    match guestUserId with
    | some gid => (some ⟨gid, true, false⟩, db, [])
    | none => (none, db, [])

/-- The failure envelope of `errorResponse` (src api-response.ts):
`{ success: false, error: { message, code } }` with its HTTP status. -/
structure ApiError where
  message : String
  code : String
  status : Nat
deriving Repr, DecidableEq

/-- `errorResponse` (src api-response.ts). -/
def errorResponse (message code : String) (status : Nat) : ApiError :=
  ⟨message, code, status⟩

/-- `AuthorizationResult` (src authorize-conversion.ts). -/
inductive AuthorizationResult where
  | authorized (userId : String) (conversion : Conversion)
      (shouldClearGuestCookie : Bool)
  | unauthorized (response : ApiError)
deriving Repr, DecidableEq

/-- `authorizeConversionAccess` (src authorize-conversion.ts): the identity
resolution is factored out as the `user` argument (its internal `resolveUser`
call's result); the four checks then run in order: non-empty id, resolved
identity, record existence, ownership. -/
def authorizeConversionAccess (user : Option ResolvedUser) (db : DBState)
    (conversionId : String) : AuthorizationResult :=
  if conversionId = "" then
    .unauthorized (errorResponse "Image ID is required" "ID_REQUIRED" 400)
  else
    match user with
    | none =>
      .unauthorized (errorResponse "Authentication required" "UNAUTHORIZED"
        401)
    | some u =>
      match ConversionRepository.findById db conversionId with
      | none =>
        .unauthorized (errorResponse "Image not found" "NOT_FOUND" 404)
      | some conversion =>
        if conversion.userId ≠ u.userId then
          .unauthorized (errorResponse
            "You do not have permission to access this image" "FORBIDDEN" 403)
        else
          .authorized u.userId conversion u.shouldClearGuestCookie

/-- `ImageProxyConfig` (src image-proxy.ts). -/
structure ImageProxyConfig where
  getBlobUrl : Conversion → String
  getContentType : Conversion → String
  getContentLength : Conversion → Buf → Nat

/-- A response of the byte-serving proxy: raw bytes with headers, or the
JSON failure envelope. -/
inductive ProxyResponse where
  | bytes (status : Nat) (body : Buf) (contentType : String)
      (contentLength : Nat) (cacheControl : String)
      (contentDisposition : String)
  | jsonError (status : Nat) (message code : String)
deriving Repr, DecidableEq

/-- `serveImageProxy` (src image-proxy.ts): an unauthorized result passes
through as its error envelope; otherwise the configured blob address is
fetched from the BlobStore collaborator (the `fetchBlob` argument) and the
bytes are served with the configured headers; any fetch failure is caught
and becomes the fixed generic retrieval-failure envelope. -/
def serveImageProxy (fetchBlob : String → Except Unit Buf)
    (authResult : AuthorizationResult) (config : ImageProxyConfig) :
    ProxyResponse :=
  match authResult with
  | .unauthorized r => .jsonError r.status r.message r.code
  | .authorized _ conversion _ =>
    match fetchBlob (config.getBlobUrl conversion) with
    | .error _ =>
      .jsonError 500 "Failed to retrieve image file" "FILE_RETRIEVAL_ERROR"
    | .ok imageBuffer =>
      .bytes 200 imageBuffer (config.getContentType conversion)
        (config.getContentLength conversion imageBuffer)
        "private, max-age=3600"
        ("inline; filename=\x22" ++ conversion.name ++ "\x22")

/-- The config the original-image route passes to `serveImageProxy`
(src original/route.ts GET). -/
def originalConfig : ImageProxyConfig :=
  ⟨Conversion.originalBlobUrl, Conversion.originalContentType,
   fun _ buf => buf.length⟩

/-- The parsed JSON body of the rename request; the `name` field is `some`
exactly when it is present and a string. -/
structure PatchBody where
  name : Option String

/-- JavaScript's `String.prototype.trim` (used by the rename route),
modelled on the character list: drop whitespace from both ends. -/
def trimName (s : String) : String :=
  String.mk
    (((s.data.dropWhile Char.isWhitespace).reverse.dropWhile
        Char.isWhitespace).reverse)

/-- A rename response: success carries the updated record's projection. -/
inductive PatchResult where
  | ok (conversion : Conversion)
  | err (status : Nat) (message code : String)
deriving Repr, DecidableEq

/-- `PATCH /api/conversions/[id]` (src original/route.ts): after
authorization (factored out as `authResult`), an unparsable body is
`INVALID_BODY`; the name is trimmed (empty when absent or not a string);
empty → `NAME_REQUIRED` (400), longer than 255 → `NAME_TOO_LONG` (400),
otherwise `updateName` runs (its Prisma throw surfacing as `UPDATE_ERROR`
via the route's catch). Returns the response and the resulting database
state. -/
def patchConversion (authResult : AuthorizationResult) (db : DBState)
    (id : String) (body : Option PatchBody) : PatchResult × DBState :=
  match authResult with
  | .unauthorized r => (.err r.status r.message r.code, db)
  | .authorized _ _ _ =>
    match body with
    | none => (.err 400 "Invalid JSON body" "INVALID_BODY", db)
    | some b =>
      let name := match b.name with
        | some s => trimName s
        | none => ""
      if name = "" then
        (.err 400 "Name is required and cannot be empty" "NAME_REQUIRED", db)
      else if name.length > 255 then
        (.err 400 "Name must be at most 255 characters" "NAME_TOO_LONG", db)
      else
        match ConversionRepository.updateName db id name with
        | .ok (conversion, db1) => (.ok conversion, db1)
        | .error _ =>
          (.err 500 "Failed to update conversion name" "UPDATE_ERROR", db)

/-- An uploaded `File`: name, MIME type, byte size and content. -/
structure UploadFile where
  name : String
  type : String
  size : Nat
  content : Buf

/-- `ValidationResult` (src validation.ts). -/
inductive ValidationResult where
  | valid
  | invalid (error : String)
deriving Repr, DecidableEq

/-- `ALLOWED_MIME_TYPES` (src validation.ts). -/
def ALLOWED_MIME_TYPES : List String :=
  ["image/png", "image/jpeg", "image/jpg", "image/webp"]

/-- `MAX_FILE_SIZE` (src validation.ts): 10 MiB. -/
def MAX_FILE_SIZE : Nat := 10 * 1024 * 1024

/-- `validateImageFile` (src validation.ts): oversize, then empty, then MIME
membership, in the source's order. (The null-file guard is made unnecessary
by the type.) -/
def validateImageFile (file : UploadFile) : ValidationResult :=
  if file.size > MAX_FILE_SIZE then
    .invalid
      "File size exceeds maximum allowed size of 10MB"
  else if file.size = 0 then
    .invalid "File is empty"
  else if !(ALLOWED_MIME_TYPES.contains file.type) then
    .invalid
      "Invalid file type. Allowed types: image/png, image/jpeg, image/jpg, image/webp"
  else .valid

/-- The externally observable effects of the upload route, in program
order. -/
inductive UploadEvent where
  | validated
  | storedOriginal
  | ranPipeline
  | storedProcessed
  | createdRecord
deriving Repr, DecidableEq

/-- The upload route's outcome envelope, reduced to status and code. -/
inductive UploadOutcome where
  | created
  | errored (status : Nat) (code : String)
deriving Repr, DecidableEq

/-- The effect order of `POST /api/upload` (src part_023, current revision),
after user resolution: missing file → `FILE_REQUIRED`; failed validation →
`INVALID_FILE` with nothing stored and no pipeline run; otherwise the
original blob is stored, the pipeline runs on the file bytes (`pipeline` is
the three-step pipeline's execute; its `PipelineStepError` surfaces with its
own code and status), then the processed blob is stored and the record
created (blob-store writes modelled as succeeding). -/
def uploadPOST (file : Option UploadFile)
    (pipeline : Buf → Except PipelineStepError Buf) :
    UploadOutcome × List UploadEvent :=
  match file with
  | none => (.errored 400 "FILE_REQUIRED", [])
  | some f =>
    match validateImageFile f with
    | .invalid _ => (.errored 400 "INVALID_FILE", [.validated])
    | .valid =>
      match pipeline f.content with
      | .error e =>
        (.errored e.statusCode e.code,
         [.validated, .storedOriginal, .ranPipeline])
      | .ok _ =>
        (.created,
         [.validated, .storedOriginal, .ranPipeline, .storedProcessed,
          .createdRecord])

/-- A sample database: one guest user with one conversion, one authenticated
user. -/
def dbSample : DBState :=
  ⟨[⟨"guest-1", true⟩, ⟨"auth-1", false⟩],
   [⟨"conv-1", "guest-1", "pic.png", "blob://orig-1", "blob://proc-1",
     "image/jpeg", "image/png", 500⟩]⟩

/-- The conversion record of `dbSample`. -/
def convSample : Conversion :=
  ⟨"conv-1", "guest-1", "pic.png", "blob://orig-1", "blob://proc-1",
   "image/jpeg", "image/png", 500⟩

/-- A valid guest token for guest-1. -/
def tokenValid : GuestToken := ⟨"guest-1", true, true, false⟩

/-- An expired guest token for guest-1. -/
def tokenExpired : GuestToken := ⟨"guest-1", true, true, true⟩

namespace ImageProcessingPipeline

theorem runStepsTrace_result (steps : List IImageProcessingStep) (b : Buf) :
    (runStepsTrace steps b).2 = runSteps steps b := by
  induction steps generalizing b with
  | nil => rfl
  | cons s rest ih =>
    simp only [runStepsTrace, runSteps]
    cases s.process b with
    | ok b2 => simpa using ih b2
    | error e => rfl

theorem runSteps_eq_foldlM (steps : List IImageProcessingStep) (b : Buf) :
    runSteps steps b = steps.foldlM (fun acc s => s.process acc) b := by
  induction steps generalizing b with
  | nil => rfl
  | cons s rest ih =>
    simp only [runSteps, List.foldlM_cons]
    cases s.process b with
    | ok b2 => simpa [Except.bind] using ih b2
    | error e => rfl

theorem runSteps_append_of_ok (pre post : List IImageProcessingStep)
    (b b' : Buf) (h : runSteps pre b = .ok b') :
    runSteps (pre ++ post) b = runSteps post b' := by
  induction pre generalizing b with
  | nil =>
    simp only [runSteps] at h
    cases h
    rfl
  | cons s rest ih =>
    simp only [runSteps] at h ⊢
    cases hp : s.process b with
    | ok b2 => rw [hp] at h; exact ih b2 h
    | error e => rw [hp] at h; cases h

theorem runStepsTrace_append_of_ok (pre post : List IImageProcessingStep)
    (b b' : Buf) (h : runSteps pre b = .ok b') :
    runStepsTrace (pre ++ post) b =
      ((runStepsTrace pre b).1 ++ (runStepsTrace post b').1,
       (runStepsTrace post b').2) := by
  induction pre generalizing b with
  | nil =>
    simp only [runSteps] at h
    cases h
    simp [runStepsTrace]
  | cons s rest ih =>
    simp only [runSteps] at h
    cases hp : s.process b with
    | ok b2 =>
      rw [hp] at h
      have h' : runSteps rest b2 = .ok b' := h
      simp only [List.cons_append, runStepsTrace, hp, List.append_eq]
      rw [ih b2 h']
    | error e => rw [hp] at h; cases h

end ImageProcessingPipeline

namespace BackgroundRemovalStep

theorem processGo_attempts_le (oracle : Nat → AttemptOutcome) :
    ∀ fuel attempt, (processGo oracle fuel attempt).attempts ≤ fuel := by
  intro fuel
  induction fuel with
  | zero => intro attempt; simp [processGo]
  | succ n ih =>
    intro attempt
    simp only [processGo]
    cases ho : oracle attempt with
    | unexpected => simp
    | fetch f =>
      cases hrb : removeBackground f with
      | ok b => simp [hrb]
      | error e =>
        simp only [hrb]
        by_cases hc : isRetryableError e = true ∧ attempt ≠ maxRetries
        · simp only [if_pos hc]
          exact Nat.succ_le_succ (ih (attempt + 1))
        · simp only [if_neg hc]; omega

theorem processGo_attempts_pos (oracle : Nat → AttemptOutcome)
    (fuel attempt : Nat) (h : 1 ≤ fuel) :
    1 ≤ (processGo oracle fuel attempt).attempts := by
  cases fuel with
  | zero => omega
  | succ n =>
    simp only [processGo]
    cases ho : oracle attempt with
    | unexpected => simp
    | fetch f =>
      cases hrb : removeBackground f with
      | ok b => simp [hrb]
      | error e =>
        simp only [hrb]
        by_cases hc : isRetryableError e = true ∧ attempt ≠ maxRetries
        · simp only [if_pos hc]; omega
        · simp only [if_neg hc]; omega

theorem processGo_delays (oracle : Nat → AttemptOutcome) :
    ∀ fuel attempt, attempt + fuel = maxRetries + 1 →
      (processGo oracle fuel attempt).delays =
        (List.range ((processGo oracle fuel attempt).attempts - 1)).map
          (fun k => retryDelayMs * (attempt + k + 1)) := by
  intro fuel
  induction fuel with
  | zero => intro attempt _; simp [processGo]
  | succ n ih =>
    intro attempt hinv
    simp only [processGo]
    cases ho : oracle attempt with
    | unexpected => simp
    | fetch f =>
      cases hrb : removeBackground f with
      | ok b => simp [hrb]
      | error e =>
        simp only [hrb]
        by_cases hc : isRetryableError e = true ∧ attempt ≠ maxRetries
        · simp only [if_pos hc]
          have hm : maxRetries = 2 := rfl
          have hinv2 : attempt + (n + 1) = 2 + 1 := by rw [hm] at hinv; exact hinv
          have hne2 : attempt ≠ 2 := by
            have h2 := hc.2
            rw [hm] at h2
            exact h2
          have hn1 : 1 ≤ n := by omega
          have hpos := processGo_attempts_pos oracle n (attempt + 1) hn1
          obtain ⟨m, hmEq⟩ :
              ∃ m, (processGo oracle n (attempt + 1)).attempts = m + 1 :=
            ⟨(processGo oracle n (attempt + 1)).attempts - 1, by omega⟩
          have ihr := ih (attempt + 1) (by rw [hm]; omega)
          rw [hmEq] at ihr
          simp only [ihr, hmEq, Nat.add_sub_cancel, List.range_succ_eq_map,
            List.map_cons, List.map_map]
          have hhead : attempt + 0 + 1 = attempt + 1 := by omega
          rw [hhead]
          congr 1
          congr 1
          funext k
          simp only [Function.comp]
          congr 1
          omega
        · simp [if_neg hc]

theorem processGo_retried_transient (oracle : Nat → AttemptOutcome) :
    ∀ fuel attempt k, k + 1 < (processGo oracle fuel attempt).attempts →
      ∃ f e, oracle (attempt + k) = .fetch f ∧
        removeBackground f = .error e ∧ isRetryableError e = true := by
  intro fuel
  induction fuel with
  | zero => intro attempt k hk; simp [processGo] at hk
  | succ n ih =>
    intro attempt k hk
    simp only [processGo] at hk
    cases ho : oracle attempt with
    | unexpected => simp only [ho] at hk; simp at hk
    | fetch f =>
      simp only [ho] at hk
      cases hrb : removeBackground f with
      | ok b => simp only [hrb] at hk; simp at hk
      | error e =>
        simp only [hrb] at hk
        by_cases hc : isRetryableError e = true ∧ attempt ≠ maxRetries
        · rw [if_pos hc] at hk
          simp only at hk
          cases k with
          | zero => exact ⟨f, e, by simpa using ho, hrb, hc.1⟩
          | succ m =>
            have hm : m + 1 < (processGo oracle n (attempt + 1)).attempts := by
              omega
            obtain ⟨f', e', h1, h2, h3⟩ := ih (attempt + 1) m hm
            refine ⟨f', e', ?_, h2, h3⟩
            have : attempt + 1 + m = attempt + (m + 1) := by omega
            rwa [this] at h1
        · rw [if_neg hc] at hk; simp at hk

theorem handleErrorResponse_mem (status : Nat) (msg : String) :
    ((handleErrorResponse status msg).code,
     (handleErrorResponse status msg).statusCode) ∈ extendedBgCodeStatuses := by
  unfold handleErrorResponse
  split_ifs <;> simp [extendedBgCodeStatuses, specifiedBgCodeStatuses]

theorem removeBackground_error_mem (f : FetchOutcome) (e : PipelineStepError)
    (h : removeBackground f = .error e) :
    (e.code, e.statusCode) ∈ extendedBgCodeStatuses := by
  cases f with
  | response status body errTitle =>
    simp only [removeBackground] at h
    by_cases h2 : 200 ≤ status ∧ status ≤ 299
    · rw [if_pos h2] at h; cases h
    · rw [if_neg h2] at h
      cases h
      exact handleErrorResponse_mem status errTitle
  | thrown =>
    simp only [removeBackground] at h
    cases h
    simp [extendedBgCodeStatuses, specifiedBgCodeStatuses]

theorem processGo_error_mem (oracle : Nat → AttemptOutcome) :
    ∀ fuel attempt e, 1 ≤ fuel → attempt + fuel = 3 →
      (processGo oracle fuel attempt).result = .error e →
      (e.code, e.statusCode) ∈ extendedBgCodeStatuses := by
  intro fuel
  induction fuel with
  | zero => intro attempt e h1 _ _; omega
  | succ n ih =>
    intro attempt e _ hinv hres
    simp only [processGo] at hres
    cases ho : oracle attempt with
    | unexpected =>
      simp only [ho] at hres
      cases hres
      simp [unexpectedError, extendedBgCodeStatuses, specifiedBgCodeStatuses]
    | fetch f =>
      simp only [ho] at hres
      cases hrb : removeBackground f with
      | ok b => simp only [hrb] at hres; cases hres
      | error e' =>
        simp only [hrb] at hres
        by_cases hc : isRetryableError e' = true ∧ attempt ≠ maxRetries
        · rw [if_pos hc] at hres
          simp only at hres
          have hm : maxRetries = 2 := rfl
          have hne2 : attempt ≠ 2 := by rw [hm] at hc; exact hc.2
          exact ih (attempt + 1) e (by omega) (by omega) hres
        · rw [if_neg hc] at hres
          cases hres
          exact removeBackground_error_mem f _ hrb

end BackgroundRemovalStep

theorem reassignUser_no_op (a b : String) (db : DBState)
    (h : ∀ c ∈ db.conversions, (c.userId == a) = false) :
    ConversionRepository.reassignUser a b db = db := by
  unfold ConversionRepository.reassignUser
  have hmap : db.conversions.map (fun c =>
      if c.userId == a then { c with userId := b } else c) =
      db.conversions := by
    have := List.map_congr_left (l := db.conversions)
      (f := fun c => if c.userId == a then { c with userId := b } else c)
      (g := id) (fun c hc => by simp [h c hc])
    simpa using this
  rw [hmap]

theorem mergeGuestUser_run (a b : String) (db : DBState)
    (hguest : db.users.any (fun u => (u.id == a) && u.isGuest) = true) :
    mergeGuestUser none none a b db =
      ({ users := db.users.filter (fun u => !((u.id == a) && u.isGuest)),
         conversions := db.conversions.map (fun c =>
           if c.userId == a then { c with userId := b } else c) },
       .ok ()) := by
  simp [mergeGuestUser, mergeTxn, ConversionRepository.reassignUser,
    deleteGuestUser, hguest]

/-- C1. For every non-empty list of steps and every input buffer `b`,
`Pipeline.execute(b)` equals the left-fold of `step.process` over `b` in list
order; if a step fails, execution records exactly the steps up to and
including the failing one (no subsequent step executes) and the failing
step's error propagates unchanged; constructing a pipeline from an empty step
list fails (with the constructor's configuration error) before any `execute`
call. -/
theorem pipeline_execute_foldl_first_failure_empty_make :
    (∀ (steps : List IImageProcessingStep) (p : ImageProcessingPipeline)
        (b : Buf),
        steps ≠ [] →
        ImageProcessingPipeline.make steps = .ok p →
        p.execute b = steps.foldlM (fun acc s => s.process acc) b) ∧
    (∀ (pre post : List IImageProcessingStep) (s : IImageProcessingStep)
        (b b' : Buf) (e : PipelineStepError),
        ImageProcessingPipeline.runSteps pre b = .ok b' →
        s.process b' = .error e →
        ImageProcessingPipeline.runStepsTrace (pre ++ s :: post) b =
          ((ImageProcessingPipeline.runStepsTrace pre b).1 ++ [s.name],
           .error e)) ∧
    ImageProcessingPipeline.make ([] : List IImageProcessingStep) =
      .error "Pipeline must have at least one processing step" := by
  refine ⟨?_, ?_, rfl⟩
  · intro steps p b hne hmk
    have hp : p.steps = steps := by
      unfold ImageProcessingPipeline.make at hmk
      rw [if_neg (by simpa using hne)] at hmk
      cases hmk
      rfl
    rw [ImageProcessingPipeline.execute, hp,
      ImageProcessingPipeline.runSteps_eq_foldlM]
  · intro pre post s b b' e hpre hs
    rw [ImageProcessingPipeline.runStepsTrace_append_of_ok pre (s :: post) b b'
      hpre]
    simp [ImageProcessingPipeline.runStepsTrace, hs]

/-- Witness for C1 at a concrete pipeline `[stepPrepend, stepKaput, stepId]`
on buffer `[7]`: the execute/fold equality, the truncated failure trace, and
the empty-constructor failure, all evaluated concretely. -/
theorem pipeline_execute_foldl_first_failure_empty_make_witness :
    (ImageProcessingPipeline.mk [stepPrepend, stepKaput, stepId]).execute [7] =
      [stepPrepend, stepKaput, stepId].foldlM (fun acc s => s.process acc)
        [7] ∧
    ImageProcessingPipeline.runStepsTrace
        ([stepPrepend] ++ stepKaput :: [stepId]) [7] =
      (["format-normalization", "background-removal"], .error errKaput) ∧
    ImageProcessingPipeline.make ([] : List IImageProcessingStep) =
      .error "Pipeline must have at least one processing step" := by
  obtain ⟨h1, h2, h3⟩ := pipeline_execute_foldl_first_failure_empty_make
  refine ⟨h1 [stepPrepend, stepKaput, stepId] _ [7] (by simp) rfl, ?_, h3⟩
  have h := h2 [stepPrepend] [stepId] stepKaput [7] [0, 7] errKaput rfl rfl
  rw [h]
  rfl

/-- C5. The RemoveBackground step makes at most `maxRetries + 1 = 3` attempts
and at least one; the sleep between attempt `k` and attempt `k + 1` (0-based)
is `retryDelayMs * (k + 1)`, i.e. linear backoff `baseDelay × attempt` in
1-based attempt numbering; every attempt beyond the first is preceded by a
failure whose code is in the transient set (`isRetryableError`); and a
non-transient first failure yields exactly one attempt with that error
propagated and no sleeps. -/
theorem bg_removal_retry_policy
    (oracle : Nat → BackgroundRemovalStep.AttemptOutcome) :
    1 ≤ (BackgroundRemovalStep.process oracle).attempts ∧
    (BackgroundRemovalStep.process oracle).attempts ≤
      BackgroundRemovalStep.maxRetries + 1 ∧
    (BackgroundRemovalStep.process oracle).delays =
      (List.range ((BackgroundRemovalStep.process oracle).attempts - 1)).map
        (fun k => BackgroundRemovalStep.retryDelayMs * (k + 1)) ∧
    (∀ k, k + 1 < (BackgroundRemovalStep.process oracle).attempts →
      ∃ f e, oracle k = .fetch f ∧
        BackgroundRemovalStep.removeBackground f = .error e ∧
        BackgroundRemovalStep.isRetryableError e = true) ∧
    (∀ f e, oracle 0 = .fetch f →
      BackgroundRemovalStep.removeBackground f = .error e →
      BackgroundRemovalStep.isRetryableError e = false →
      BackgroundRemovalStep.process oracle = ⟨.error e, 1, []⟩) := by
  refine ⟨?_, ?_, ?_, ?_, ?_⟩
  · exact BackgroundRemovalStep.processGo_attempts_pos oracle _ 0 (by omega)
  · exact BackgroundRemovalStep.processGo_attempts_le oracle _ 0
  · have h := BackgroundRemovalStep.processGo_delays oracle
      (BackgroundRemovalStep.maxRetries + 1) 0 rfl
    simpa [BackgroundRemovalStep.process] using h
  · intro k hk
    have h := BackgroundRemovalStep.processGo_retried_transient oracle
      (BackgroundRemovalStep.maxRetries + 1) 0 k hk
    simpa using h
  · intro f e hf he hnr
    show BackgroundRemovalStep.processGo oracle
      (BackgroundRemovalStep.maxRetries + 1) 0 = _
    have hm : BackgroundRemovalStep.maxRetries + 1 = 2 + 1 := rfl
    rw [hm]
    simp only [BackgroundRemovalStep.processGo, hf, he]
    rw [if_neg (by simp [hnr])]

/-- Witness for C5: with two transient failures then success the step makes
3 attempts with delays `[1000, 2000]`; with a quota-exhausted (402) first
response it makes exactly 1 attempt, no sleep, and propagates the quota
error. -/
theorem bg_removal_retry_policy_witness :
    (BackgroundRemovalStep.process oracleTransient).attempts ≤
      BackgroundRemovalStep.maxRetries + 1 ∧
    (BackgroundRemovalStep.process oracleTransient).delays =
      (List.range
          ((BackgroundRemovalStep.process oracleTransient).attempts - 1)).map
        (fun k => BackgroundRemovalStep.retryDelayMs * (k + 1)) ∧
    BackgroundRemovalStep.process oracleQuota =
      ⟨.error (BackgroundRemovalStep.handleErrorResponse 402
          "Insufficient credits"), 1, []⟩ := by
  obtain ⟨_, h2, h3, _, _⟩ := bg_removal_retry_policy oracleTransient
  obtain ⟨_, _, _, _, h5⟩ := bg_removal_retry_policy oracleQuota
  exact ⟨h2, h3,
    h5 (.response 402 [] "Insufficient credits") _ rfl rfl rfl⟩

/-- C6 counterexample: an upstream error response with status 418 (reachable:
any non-2xx status outside {400, 402, 403, 429, 500, 502, 503, 504}) makes
the step fail with code `BG_REMOVAL_FAILED` and status 502, a (code, status)
pair not in the claim's specified mapping. -/
theorem bg_removal_error_codes_counterexample :
    (BackgroundRemovalStep.process
        (fun _ => .fetch (.response 418 [] "Unknown error"))).result =
      .error ⟨"background-removal", "BG_REMOVAL_FAILED", 502,
        "Background removal failed: Unknown error"⟩ ∧
    specifiedBgCodeStatuses.contains ("BG_REMOVAL_FAILED", 502) = false :=
  ⟨rfl, rfl⟩

/-- C6 (amended). Every failure of the RemoveBackground step — upstream error
responses, network failures and unexpected exceptions alike — leaves the step
as a typed `PipelineStepError` whose (code, status) pair is one of the six
specified ones or the `BG_REMOVAL_FAILED` (502) fallback for unrecognized
upstream error statuses; no untyped error escapes. -/
theorem bg_removal_error_normalization
    (oracle : Nat → BackgroundRemovalStep.AttemptOutcome)
    (e : PipelineStepError)
    (h : (BackgroundRemovalStep.process oracle).result = .error e) :
    (e.code, e.statusCode) ∈ extendedBgCodeStatuses :=
  BackgroundRemovalStep.processGo_error_mem oracle
    (BackgroundRemovalStep.maxRetries + 1) 0 e (by omega) rfl h

/-- Witness for C6 (amended), at an oracle whose first attempt throws a
non-`PipelineStepError` value: the resulting `BG_REMOVAL_UNEXPECTED_ERROR`
(500) pair is in the extended mapping. -/
theorem bg_removal_error_normalization_witness :
    ("BG_REMOVAL_UNEXPECTED_ERROR", (500 : Nat)) ∈ extendedBgCodeStatuses :=
  bg_removal_error_normalization (fun _ => .unexpected)
    BackgroundRemovalStep.unexpectedError rfl

/-- C2. Merge is idempotent: with an anonymous (guest) identity `a` present
and an authenticated identity `b ≠ a`, one `Merge(a, b)` succeeds, reassigns
every content record owned by `a` to `b`, leaves no record owned by `a` and
no guest identity `a`; and a second `Merge(a, b)` on the resulting state is a
no-op that still returns success (the identity-already-gone case is
swallowed), so two runs end in the same state as one. -/
theorem merge_idempotent (db : DBState) (a b : String)
    (hguest : db.users.any (fun u => (u.id == a) && u.isGuest) = true)
    (hne : a ≠ b) :
    (mergeGuestUser none none a b db).2 = .ok () ∧
    (mergeGuestUser none none a b db).1.conversions =
      db.conversions.map (fun c =>
        if c.userId == a then { c with userId := b } else c) ∧
    (∀ c ∈ (mergeGuestUser none none a b db).1.conversions,
      c.userId ≠ a) ∧
    (mergeGuestUser none none a b db).1.users.any
      (fun u => (u.id == a) && u.isGuest) = false ∧
    mergeGuestUser none none a b (mergeGuestUser none none a b db).1 =
      ((mergeGuestUser none none a b db).1, .ok ()) := by
  have hrun := mergeGuestUser_run a b db hguest
  rw [hrun]
  have hnoA : ∀ c ∈ db.conversions.map (fun c =>
      if c.userId == a then { c with userId := b } else c),
      (c.userId == a) = false := by
    intro c hc
    simp only [List.mem_map] at hc
    obtain ⟨c0, _, rfl⟩ := hc
    by_cases h0 : c0.userId == a
    · simp only [if_pos h0]
      simpa using fun hba => hne hba.symm
    · simp only [if_neg h0]
      simpa using h0
  have husers : (db.users.filter
      (fun u => !((u.id == a) && u.isGuest))).any
      (fun u => (u.id == a) && u.isGuest) = false := by
    rw [Bool.eq_false_iff]
    intro hany
    rw [List.any_eq_true] at hany
    obtain ⟨u, hu, hpu⟩ := hany
    rw [List.mem_filter] at hu
    rw [hpu] at hu
    simp at hu
  refine ⟨rfl, rfl, ?_, husers, ?_⟩
  · intro c hc hEq
    have := hnoA c hc
    rw [hEq] at this
    simp at this
  · have hre : ConversionRepository.reassignUser a b
        { users := db.users.filter (fun u => !((u.id == a) && u.isGuest)),
          conversions := db.conversions.map (fun c =>
            if c.userId == a then { c with userId := b } else c) } =
        { users := db.users.filter (fun u => !((u.id == a) && u.isGuest)),
          conversions := db.conversions.map (fun c =>
            if c.userId == a then { c with userId := b } else c) } :=
      reassignUser_no_op a b _ hnoA
    simp only [mergeGuestUser, mergeTxn, hre, deleteGuestUser]
    rw [if_neg (by simpa using husers)]
    rfl

/-- Witness for C2 on `dbSample`: the first merge of guest-1 into auth-1
succeeds and the second merge is a no-op success on the merged state. -/
theorem merge_idempotent_witness :
    (mergeGuestUser none none "guest-1" "auth-1" dbSample).2 = .ok () ∧
    mergeGuestUser none none "guest-1" "auth-1"
        (mergeGuestUser none none "guest-1" "auth-1" dbSample).1 =
      ((mergeGuestUser none none "guest-1" "auth-1" dbSample).1, .ok ()) := by
  obtain ⟨h1, _, _, _, h5⟩ :=
    merge_idempotent dbSample "guest-1" "auth-1" rfl (by decide)
  exact ⟨h1, h5⟩

/-- C7. The merge transaction is atomic: whenever `mergeGuestUser` returns an
error — any injected persistence-engine fault other than the
identity-already-gone P2025 — the database state is exactly the
pre-transaction state (no partial reassignment); and when the anonymous
identity is already gone the whole call is a no-op that returns success. -/
theorem merge_atomic_rollback (rf df : Option String) (a b : String)
    (db : DBState) :
    (∀ msg, (mergeGuestUser rf df a b db).2 = .error msg →
      (mergeGuestUser rf df a b db).1 = db) ∧
    (db.users.any (fun u => (u.id == a) && u.isGuest) = false →
      mergeGuestUser none none a b db = (db, .ok ())) := by
  constructor
  · intro msg hmsg
    unfold mergeGuestUser at hmsg ⊢
    cases htx : mergeTxn rf df a b db with
    | ok db1 => rw [htx] at hmsg; cases hmsg
    | error e =>
      change (if e = "P2025" then (db, Except.ok ())
        else (db, Except.error ("Failed to merge guest user: " ++ e))).1 = db
      split_ifs <;> rfl
  · intro hgone
    simp [mergeGuestUser, mergeTxn, ConversionRepository.reassignUser,
      deleteGuestUser, hgone]

/-- Witness for C7: an injected engine fault (Prisma P1017, connection
closed) on the reassign step leaves `dbSample` unchanged while surfacing the
wrapped error; merging an absent guest id is a success no-op. -/
theorem merge_atomic_rollback_witness :
    (mergeGuestUser (some "P1017") none "guest-1" "auth-1" dbSample).1 =
      dbSample ∧
    mergeGuestUser none none "missing" "auth-1" dbSample =
      (dbSample, .ok ()) := by
  obtain ⟨h1, _⟩ :=
    merge_atomic_rollback (some "P1017") none "guest-1" "auth-1" dbSample
  obtain ⟨_, h2⟩ := merge_atomic_rollback none none "missing" "auth-1" dbSample
  exact ⟨h1 "Failed to merge guest user: P1017" rfl, h2 rfl⟩

/-- C3. With a valid session and a valid guest cookie, `resolveUser` returns
the authenticated identity with the clear-cookie signal set, the returned
state is the result of exactly one synchronous `mergeGuestUser` call, and the
merge-call trace has length one; with no session and a guest cookie that is
expired or fails signature verification, `resolveUser` returns "no identity"
(`none`) with the state untouched and no merge call, rather than an
error. -/
theorem resolve_user_merge_once_and_degrade :
    (∀ (uid : String) (t : GuestToken) (db : DBState),
      t.sigValid = true → t.expired = false → t.isGuest = true →
      resolveUser (some uid) (some t) db =
        (some ⟨uid, false, true⟩,
         (mergeGuestUser none none t.sub uid db).1, [(t.sub, uid)])) ∧
    (∀ (t : GuestToken) (db : DBState),
      t.sigValid = false ∨ t.expired = true →
      resolveUser none (some t) db = (none, db, [])) := by
  constructor
  · intro uid t db hsig hexp hguest
    simp [resolveUser, readGuestCookie, hsig, hexp, hguest]
  · intro t db hbad
    cases hbad with
    | inl h => simp [resolveUser, readGuestCookie, h]
    | inr h => simp [resolveUser, readGuestCookie, h]

/-- Witness for C3 on `dbSample`: resolution with session auth-1 and the
valid guest-1 cookie merges once and signals the cookie clear; resolution
with only the expired cookie yields no identity. -/
theorem resolve_user_merge_once_and_degrade_witness :
    resolveUser (some "auth-1") (some tokenValid) dbSample =
      (some ⟨"auth-1", false, true⟩,
       (mergeGuestUser none none "guest-1" "auth-1" dbSample).1,
       [("guest-1", "auth-1")]) ∧
    resolveUser none (some tokenExpired) dbSample = (none, dbSample, []) := by
  obtain ⟨h1, h2⟩ := resolve_user_merge_once_and_degrade
  exact ⟨h1 "auth-1" tokenValid dbSample rfl rfl rfl,
    h2 tokenExpired dbSample (Or.inr rfl)⟩

/-- C4. The ownership gate applies its four checks in order: an empty
resource id yields `ID_REQUIRED` (400) regardless of identity and database;
with a non-empty id, an unresolved identity yields `UNAUTHORIZED` (401); a
missing record yields `NOT_FOUND` (404) regardless of which resolved identity
asks; and an existing record owned by a different identity yields `FORBIDDEN`
(403) — never `NOT_FOUND`. -/
theorem ownership_gate_check_order :
    (∀ (user : Option ResolvedUser) (db : DBState),
      authorizeConversionAccess user db "" =
        .unauthorized (errorResponse "Image ID is required" "ID_REQUIRED"
          400)) ∧
    (∀ (db : DBState) (id : String), id ≠ "" →
      authorizeConversionAccess none db id =
        .unauthorized (errorResponse "Authentication required" "UNAUTHORIZED"
          401)) ∧
    (∀ (u : ResolvedUser) (db : DBState) (id : String), id ≠ "" →
      ConversionRepository.findById db id = none →
      authorizeConversionAccess (some u) db id =
        .unauthorized (errorResponse "Image not found" "NOT_FOUND" 404)) ∧
    (∀ (u : ResolvedUser) (db : DBState) (id : String) (c : Conversion),
      id ≠ "" →
      ConversionRepository.findById db id = some c →
      c.userId ≠ u.userId →
      authorizeConversionAccess (some u) db id =
        .unauthorized (errorResponse
          "You do not have permission to access this image" "FORBIDDEN"
          403)) := by
  refine ⟨?_, ?_, ?_, ?_⟩
  · intro user db
    simp [authorizeConversionAccess]
  · intro db id hid
    simp [authorizeConversionAccess, hid]
  · intro u db id hid hfind
    simp [authorizeConversionAccess, hid, hfind]
  · intro u db id c hid hfind hown
    simp [authorizeConversionAccess, hid, hfind, hown]

/-- Witness for C4 on `dbSample`: empty id → 400; no identity → 401; unknown
id → 404 (for an arbitrary asker); conv-1 asked for by a non-owner → 403. -/
theorem ownership_gate_check_order_witness :
    authorizeConversionAccess (some ⟨"auth-1", false, false⟩) dbSample "" =
      .unauthorized (errorResponse "Image ID is required" "ID_REQUIRED"
        400) ∧
    authorizeConversionAccess none dbSample "conv-1" =
      .unauthorized (errorResponse "Authentication required" "UNAUTHORIZED"
        401) ∧
    authorizeConversionAccess (some ⟨"auth-1", false, false⟩) dbSample
        "conv-404" =
      .unauthorized (errorResponse "Image not found" "NOT_FOUND" 404) ∧
    authorizeConversionAccess (some ⟨"auth-1", false, false⟩) dbSample
        "conv-1" =
      .unauthorized (errorResponse
        "You do not have permission to access this image" "FORBIDDEN"
        403) := by
  obtain ⟨h1, h2, h3, h4⟩ := ownership_gate_check_order
  refine ⟨h1 (some ⟨"auth-1", false, false⟩) dbSample, ?_, ?_, ?_⟩
  · exact h2 dbSample "conv-1" (by decide)
  · exact h3 ⟨"auth-1", false, false⟩ dbSample "conv-404" (by decide) rfl
  · exact h4 ⟨"auth-1", false, false⟩ dbSample "conv-1" convSample
      (by decide) rfl (by decide)

/-- C8. The content proxy never places the backing storage address in a
response: on success the body is exactly the fetched bytes with the
content-type, length, private cache directive and display-name disposition
headers; on any BlobStore fetch failure the response is the fixed generic
retrieval-failure envelope, identical for every address; and, as a
noninterference property, changing the record's stored blob addresses (with
the fetch outcome at the respective address held fixed) leaves the response
unchanged — the address cannot appear anywhere in it. -/
theorem content_proxy_never_leaks_address :
    (∀ (fetchBlob : String → Except Unit Buf) (uid : String)
        (c : Conversion) (scc : Bool) (cfg : ImageProxyConfig),
      fetchBlob (cfg.getBlobUrl c) = .error () →
      serveImageProxy fetchBlob (.authorized uid c scc) cfg =
        .jsonError 500 "Failed to retrieve image file"
          "FILE_RETRIEVAL_ERROR") ∧
    (∀ (fetchBlob : String → Except Unit Buf) (uid : String)
        (c : Conversion) (scc : Bool) (cfg : ImageProxyConfig) (buf : Buf),
      fetchBlob (cfg.getBlobUrl c) = .ok buf →
      serveImageProxy fetchBlob (.authorized uid c scc) cfg =
        .bytes 200 buf (cfg.getContentType c) (cfg.getContentLength c buf)
          "private, max-age=3600"
          ("inline; filename=\x22" ++ c.name ++ "\x22")) ∧
    (∀ (r : Except Unit Buf) (uid uid2 : String) (scc scc2 : Bool)
        (c : Conversion) (x y : String)
        (f f2 : String → Except Unit Buf),
      f c.originalBlobUrl = r → f2 x = r →
      serveImageProxy f (.authorized uid c scc) originalConfig =
        serveImageProxy f2
          (.authorized uid2
            { c with originalBlobUrl := x, processedBlobUrl := y } scc2)
          originalConfig) := by
  refine ⟨?_, ?_, ?_⟩
  · intro fetchBlob uid c scc cfg hf
    simp [serveImageProxy, hf]
  · intro fetchBlob uid c scc cfg buf hf
    simp [serveImageProxy, hf]
  · intro r uid uid2 scc scc2 c x y f f2 hf hf2
    cases r with
    | ok buf => simp [serveImageProxy, originalConfig, hf, hf2]
    | error e => simp [serveImageProxy, originalConfig, hf, hf2]

/-- Witness for C8 on `convSample`: a failing BlobStore yields the fixed
generic envelope; a succeeding one yields the raw bytes with headers; and a
record pointing at a completely different internal address produces the
byte-identical response. -/
theorem content_proxy_never_leaks_address_witness :
    serveImageProxy (fun _ => .error ())
        (.authorized "guest-1" convSample false) originalConfig =
      .jsonError 500 "Failed to retrieve image file" "FILE_RETRIEVAL_ERROR" ∧
    serveImageProxy (fun _ => .ok [9, 8, 7])
        (.authorized "guest-1" convSample false) originalConfig =
      .bytes 200 [9, 8, 7] "image/jpeg" 3 "private, max-age=3600"
        "inline; filename=\x22pic.png\x22" ∧
    serveImageProxy (fun _ => .ok [9, 8, 7])
        (.authorized "guest-1" convSample false) originalConfig =
      serveImageProxy (fun _ => .ok [9, 8, 7])
        (.authorized "auth-1"
          { convSample with
            originalBlobUrl := "blob://secret"
            processedBlobUrl := "blob://secret2" } true)
        originalConfig := by
  obtain ⟨h1, h2, h3⟩ := content_proxy_never_leaks_address
  refine ⟨h1 (fun _ => .error ()) "guest-1" convSample false originalConfig
    rfl, ?_, ?_⟩
  · have := h2 (fun _ => .ok [9, 8, 7]) "guest-1" convSample false
      originalConfig [9, 8, 7] rfl
    simpa [originalConfig, convSample] using this
  · exact h3 (.ok [9, 8, 7]) "guest-1" "auth-1" false true convSample
      "blob://secret" "blob://secret2" (fun _ => .ok [9, 8, 7])
      (fun _ => .ok [9, 8, 7]) rfl rfl

/-- C9. For a rename request that passed the ownership gate: a name that is
empty after trimming (including an absent or non-string name) is rejected
with `NAME_REQUIRED` (400) and the database is unchanged; a trimmed name
longer than 255 characters is rejected with `NAME_TOO_LONG` (400) and the
database is unchanged; a trimmed name of 1–255 characters on an existing
record succeeds and the resulting state changes exactly the display name of
the matching record — users and all other fields untouched. -/
theorem rename_validation (db : DBState) (id uid : String) (c0 : Conversion)
    (scc : Bool) (s : String) :
    (trimName s = "" →
      patchConversion (.authorized uid c0 scc) db id (some ⟨some s⟩) =
        (.err 400 "Name is required and cannot be empty" "NAME_REQUIRED",
         db)) ∧
    (trimName s ≠ "" → (trimName s).length > 255 →
      patchConversion (.authorized uid c0 scc) db id (some ⟨some s⟩) =
        (.err 400 "Name must be at most 255 characters" "NAME_TOO_LONG",
         db)) ∧
    (∀ c, trimName s ≠ "" → (trimName s).length ≤ 255 →
      ConversionRepository.findById db id = some c →
      patchConversion (.authorized uid c0 scc) db id (some ⟨some s⟩) =
        (.ok { c with name := trimName s },
         { db with conversions := db.conversions.map (fun x =>
             if x.id == id then { x with name := trimName s } else x) })) := by
  refine ⟨?_, ?_, ?_⟩
  · intro hempty
    simp [patchConversion, hempty]
  · intro hne hlong
    simp [patchConversion, hne, hlong]
  · intro c hne hlen hfind
    have hnl : ¬ (trimName s).length > 255 := by omega
    simp [patchConversion, hne, hnl, ConversionRepository.updateName, hfind]

set_option maxRecDepth 4000 in
/-- Witness for C9 on `dbSample` / record conv-1: a whitespace-only name is
rejected with `NAME_REQUIRED` and no mutation; a 300-character name is
rejected with `NAME_TOO_LONG` and no mutation; the name " New Name " is
trimmed and updates exactly conv-1's display name. -/
theorem rename_validation_witness :
    patchConversion (.authorized "guest-1" convSample false) dbSample
        "conv-1" (some ⟨some "   "⟩) =
      (.err 400 "Name is required and cannot be empty" "NAME_REQUIRED",
       dbSample) ∧
    patchConversion (.authorized "guest-1" convSample false) dbSample
        "conv-1" (some ⟨some (String.mk (List.replicate 300 'x'))⟩) =
      (.err 400 "Name must be at most 255 characters" "NAME_TOO_LONG",
       dbSample) ∧
    patchConversion (.authorized "guest-1" convSample false) dbSample
        "conv-1" (some ⟨some " New Name "⟩) =
      (.ok { convSample with name := "New Name" },
       { dbSample with conversions := dbSample.conversions.map (fun x =>
           if x.id == "conv-1" then { x with name := "New Name" } else x) }) := by
  obtain ⟨h1, _, _⟩ := rename_validation dbSample "conv-1" "guest-1"
    convSample false "   "
  obtain ⟨_, h2, _⟩ := rename_validation dbSample "conv-1" "guest-1"
    convSample false (String.mk (List.replicate 300 'x'))
  obtain ⟨_, _, h3⟩ := rename_validation dbSample "conv-1" "guest-1"
    convSample false " New Name "
  refine ⟨h1 (by decide), ?_, ?_⟩
  · exact h2 (by decide) (by decide)
  · have hres := h3 convSample (by decide) (by decide) rfl
    have htn : trimName " New Name " = "New Name" := by decide
    rw [htn] at hres
    exact hres

/-- C10. Upload-time file validation accepts a file iff its size is strictly
positive, at most 10 × 1024 × 1024 bytes, and its MIME type is one of
image/png, image/jpeg, image/jpg, image/webp; and whenever validation
rejects, the upload route answers `INVALID_FILE` (400) having performed no
effect beyond the validation itself — no blob stored, no pipeline step
run. -/
theorem upload_validation_gate (f : UploadFile)
    (pipeline : Buf → Except PipelineStepError Buf) :
    (validateImageFile f = .valid ↔
      (0 < f.size ∧ f.size ≤ 10 * 1024 * 1024 ∧
        f.type ∈ ALLOWED_MIME_TYPES)) ∧
    (validateImageFile f ≠ .valid →
      uploadPOST (some f) pipeline =
        (.errored 400 "INVALID_FILE", [.validated])) := by
  constructor
  · constructor
    · intro h
      unfold validateImageFile MAX_FILE_SIZE at h
      split_ifs at h with h1 h2 h3
      refine ⟨by omega, by omega, ?_⟩
      have hc : ALLOWED_MIME_TYPES.contains f.type = true := by
        cases hcc : ALLOWED_MIME_TYPES.contains f.type
        · rw [hcc] at h3; simp at h3
        · rfl
      exact List.mem_of_elem_eq_true hc
    · intro hcond
      obtain ⟨hpos, hle, hmem⟩ := hcond
      have hc : ALLOWED_MIME_TYPES.contains f.type = true :=
        List.elem_eq_true_of_mem hmem
      unfold validateImageFile MAX_FILE_SIZE
      rw [if_neg (by omega), if_neg (by omega), if_neg (by simp [hc, hmem])]
  · intro hbad
    cases hv : validateImageFile f with
    | valid => exact absurd hv hbad
    | invalid msg => simp [uploadPOST, hv]

/-- Witness for C10: a 0-byte PNG, an 11 MiB PNG and a PDF are each rejected
by validation (and the 0-byte one short-circuits the route with only the
validation effect); a 500-byte JPEG is accepted. -/
theorem upload_validation_gate_witness :
    validateImageFile ⟨"a.png", "image/png", 0, []⟩ ≠ .valid ∧
    uploadPOST (some ⟨"a.png", "image/png", 0, []⟩)
        (fun b => .ok b) =
      (.errored 400 "INVALID_FILE", [.validated]) ∧
    validateImageFile ⟨"b.png", "image/png", 11 * 1024 * 1024, [1]⟩ ≠
      .valid ∧
    validateImageFile ⟨"c.pdf", "application/pdf", 500, [1]⟩ ≠ .valid ∧
    validateImageFile ⟨"d.jpg", "image/jpeg", 500, [1]⟩ = .valid := by
  obtain ⟨_, hgate0⟩ :=
    upload_validation_gate ⟨"a.png", "image/png", 0, []⟩ (fun b => .ok b)
  obtain ⟨hiff3, _⟩ :=
    upload_validation_gate ⟨"d.jpg", "image/jpeg", 500, [1]⟩ (fun b => .ok b)
  have h0 : validateImageFile ⟨"a.png", "image/png", 0, []⟩ ≠ .valid := by
    decide
  refine ⟨h0, hgate0 h0, by decide, by decide,
    hiff3.mpr ⟨by decide, by decide, by decide⟩⟩

end ImgSvc
